import Mathlib

/-
  Verification model of the skip list container in SkipList.h.

  The C++ container is a template over a key type, a value type, a
  less-than comparison object and a maximum level count (default 16).
  We embed it shallowly:

  * Nodes live in an explicit heap, an association list from pointers
    (natural numbers) to node records.  `new` allocates at `nextPtr`,
    `delete` erases the entry.  Dereferencing a pointer that is not in
    the heap, or the null pointer, models undefined behaviour in the
    C++ program and makes the operation return `none`.
  * Keys are fixed to `Int` (the test program instantiates the template
    with `int`); the comparison object is an explicit parameter
    `lt : Int → Int → Bool`, so different orderings can be supplied.
    Values stay a type parameter `V`.
  * `IsLessThan` special-cases its operands by address identity.  We
    model an "address of a key" with `KeyRef`: a key stored inside heap
    node `p` (its address identifies `p`), a key held outside the
    container (function arguments; a fresh stack address, never equal
    to any stored key address), or the key subobject of the null
    pointer.  Address comparisons never read memory, so they succeed
    even on a dangling pointer, exactly as the machine executes the
    C++; reading the key value of a dead or null node yields `none`.
  * `std::size_t` arithmetic is `Nat` modulo 2 ^ 64.
  * The random level generator draws from an explicit stream of coin
    flips (`true` = the uniform draw was below one half); an exhausted
    stream behaves as tails.  Reachability of a state quantifies over
    the streams.
  * All loops are written as structurally recursive functions; the two
    unbounded `while` loops over the node chain carry explicit fuel
    (heap size + 1 at call sites, which bounds any acyclic walk).
-/

namespace SkipListModel

abbrev Ptr := Nat

/-- Model of `SkipList::NodeType`: one key/value pair and an array of
`MaximumLevels` forward pointers (`none` is the null pointer, the
default initialisation). -/
structure NodeType (V : Type) where
  key : Int
  value : V
  forward : List (Option Ptr)
deriving DecidableEq

/-- Model of the `SkipList` object: the heap of nodes it owns plus its
member fields `m_Header`, `m_End`, `m_HighestLevel` and `m_Size`.
`nextPtr` is the allocator state. -/
structure SkipList (V : Type) where
  heap : List (Ptr × NodeType V)
  nextPtr : Ptr
  header : Ptr
  endp : Ptr
  highestLevel : Nat
  size : Nat
deriving DecidableEq

/-- The template parameter `MaximumLevels` at its default value. -/
def MaximumLevels : Nat := 16

/-- Modulus of `std::size_t` arithmetic (64-bit). -/
def WordModulus : Nat := 2 ^ 64

/-- Read a node from the heap (dereference a pointer).  `none` means
the pointer does not denote a live node. -/
def lookupN {V : Type} : List (Ptr × NodeType V) → Ptr → Option (NodeType V)
  | [], _ => none
  | (q, n) :: t, p => if q = p then some n else lookupN t p

/-- Overwrite the node stored at `p` (mutation through a pointer). -/
def updateN {V : Type} : List (Ptr × NodeType V) → Ptr → (NodeType V → NodeType V) → List (Ptr × NodeType V)
  | [], _, _ => []
  | (q, n) :: t, p, f => if q = p then (q, f n) :: t else (q, n) :: updateN t p f

/-- Remove the node stored at `p` (the `delete` expression). -/
def eraseN {V : Type} : List (Ptr × NodeType V) → Ptr → List (Ptr × NodeType V)
  | [], _ => []
  | (q, n) :: t, p => if q = p then t else (q, n) :: eraseN t p

/-- `NodeType::GetForwardPointer(Level)`: unchecked read of the level-th
forward pointer of an already dereferenced node. -/
def fwdAt {V : Type} (n : NodeType V) (lvl : Nat) : Option Ptr :=
  n.forward.getD lvl none

/-- A reference to a key object, identified the way the C++ code
identifies it: by its address.  `stored p` is the key subobject of heap
node `p`; `ext k` is a key object outside the container holding value
`k` (an `Insert`/`Delete`/`Search` argument); `null` is the key
subobject of the null pointer. -/
inductive KeyRef where
  | stored (p : Ptr)
  | ext (k : Int)
  | null
deriving DecidableEq

/-- Address equality of two key references.  Two stored keys share an
address exactly when they belong to the same node; an external key
object is a distinct stack object, so it never shares an address with
a stored key (and distinct call sites pass distinct objects). -/
def sameAddr : KeyRef → KeyRef → Bool
  | KeyRef.stored p, KeyRef.stored q => p = q
  | _, _ => false

/-- Read the value of a key through a reference.  Reading the key of a
node that is not live (freed or null) is undefined behaviour. -/
def keyVal {V : Type} (s : SkipList V) : KeyRef → Option Int
  | KeyRef.stored p => (lookupN s.heap p).map (fun n => n.key)
  | KeyRef.ext k => some k
  | KeyRef.null => none

/-- Model of `SkipList::IsLessThan`.  The branch order follows the
source: same address, terminal sentinel on the right, terminal sentinel
on the left, header on the right, header on the left, and only then the
user comparison object on the key values.  The sentinel tests compare
the operand address with the address of `m_End`'s / `m_Header`'s key,
which is a pure address computation and involves no memory read. -/
def IsLessThan {V : Type} (lt : Int → Int → Bool) (s : SkipList V) (l r : KeyRef) : Option Bool :=
  if sameAddr l r then some false
  else if r = KeyRef.stored s.endp then some true
  else if l = KeyRef.stored s.endp then some false
  else if r = KeyRef.stored s.header then some false
  else if l = KeyRef.stored s.header then some true
  else match keyVal s l, keyVal s r with
    | some a, some b => some (lt a b)
    | _, _ => none

/-- Model of `SkipList::IsLessThanOrEqual` (used only in assertions):
less-than, or equivalent because neither side is less than the other. -/
def IsLessThanOrEqual {V : Type} (lt : Int → Int → Bool) (s : SkipList V) (l r : KeyRef) : Option Bool := do
  let b1 ← IsLessThan lt s l r
  if b1 then
    some true
  else do
    let b2 ← IsLessThan lt s l r
    let b3 ← IsLessThan lt s r l
    if !b2 && !b3 then some true else some false

/-- An `assert(...)` with assertions enabled: evaluating the condition
may itself be undefined; a false condition aborts the program.  Either
way the operation does not complete. -/
def assertCheck (cond : Option Bool) : Option Unit := do
  let b ← cond
  if b then some () else none

/-- Turn a forward pointer into a reference to the key of the node it
points to (`GetForwardPointer(...)->GetKey()`). -/
def refOf : Option Ptr → KeyRef
  | some p => KeyRef.stored p
  | none => KeyRef.null

/-- The inner `while` loop shared by `Insert`, `Search` and `Delete`:
starting from node `cur`, keep moving right on level `lvl` while the
next node's key is less than the target.  Returns the stopping node.
`fuel` bounds the walk; call sites pass `heap.length + 1`, enough for
any walk that does not revisit a node. -/
def advance {V : Type} (lt : Int → Int → Bool) (s : SkipList V) (target : KeyRef)
    (lvl : Nat) : Ptr → Nat → Option Ptr
  | _, 0 => none
  | cur, fuel + 1 => do
    let n ← lookupN s.heap cur
    let nxt := fwdAt n lvl
    let b ← IsLessThan lt s (refOf nxt) target
    if b then
      match nxt with
      | some q => advance lt s target lvl q fuel
      | none => none
    else
      some cur

/-- The outer `for` loop of the three traversals: process levels
`lvl, lvl - 1, ..., 0`, remembering in `upd` the rightmost node to the
left of the target at each level (`UpdatedPointers`).  `Insert` and
`Search` additionally run the two invariant assertions after the inner
loop (`withAsserts`); the `Delete` copy of this loop has none.  Returns
the final node together with the predecessor vector. -/
def findPreds {V : Type} (lt : Int → Int → Bool) (s : SkipList V) (target : KeyRef)
    (withAsserts : Bool) : Nat → Ptr → List (Option Ptr) → Option (Ptr × List (Option Ptr))
  | lvl, cur, upd => do
    let cur2 ← advance lt s target lvl cur (s.heap.length + 1)
    let _ ← (if withAsserts then do
        let _ ← assertCheck (IsLessThan lt s (KeyRef.stored cur2) target)
        let n2 ← lookupN s.heap cur2
        assertCheck (IsLessThanOrEqual lt s target (refOf (fwdAt n2 lvl)))
      else
        some ())
    let upd2 := upd.set lvl (some cur2)
    match lvl with
    | 0 => some (cur2, upd2)
    | l + 1 => findPreds lt s target withAsserts l cur2 upd2

/-- Model of `SkipList::GetRandomLevel`: flip coins, increasing the
level while the draw is below one half and the level is below
`MaximumLevels - 1`. -/
def getRandomLevelAux : List Bool → Nat → Nat
  | [], lvl => lvl
  | c :: rest, lvl =>
    if c && decide (lvl < MaximumLevels - 1) then getRandomLevelAux rest (lvl + 1) else lvl

/-- Entry point of the level selector on a coin stream. -/
def GetRandomLevel (coins : List Bool) : Nat :=
  getRandomLevelAux coins 0

/-- The loop in `Insert` that, when the drawn level exceeds the current
highest, points the predecessor slots of every newly activated level at
the header: iterates `count` times starting at level `lvl`. -/
def raiseHeaderGo (hdr : Ptr) : Nat → Nat → List (Option Ptr) → List (Option Ptr)
  | _, 0, upd => upd
  | lvl, count + 1, upd => raiseHeaderGo hdr (lvl + 1) count (upd.set lvl (some hdr))

/-- The splice loop of `Insert`, iterating `count` times starting at
level `lvl` (the source runs it for every level from 0 up to
`m_HighestLevel`): at each level the new node's forward pointer is set
to the predecessor's current forward pointer, then the predecessor's
forward pointer is repointed at the new node. -/
def spliceGo {V : Type} (upd : List (Option Ptr)) (newPtr : Ptr) :
    Nat → Nat → List (Ptr × NodeType V) → Option (List (Ptr × NodeType V))
  | _, 0, heap => some heap
  | lvl, count + 1, heap =>
    match upd.getD lvl none with
    | none => none
    | some pred => do
      let pn ← lookupN heap pred
      let oldFwd := fwdAt pn lvl
      let heap1 := updateN heap newPtr (fun m => { m with forward := m.forward.set lvl oldFwd })
      let heap2 := updateN heap1 pred (fun m => { m with forward := m.forward.set lvl (some newPtr) })
      spliceGo upd newPtr (lvl + 1) count heap2

/-- Model of `SkipList::Insert`.  Traverse, inspect the level-0
successor of the final predecessor, and either overwrite its value when
its key compares equal with `operator==`, or allocate a new node at a
drawn random level and splice it in. -/
def Insert {V : Type} (lt : Int → Int → Bool) (s : SkipList V) (key : Int) (value : V)
    (coins : List Bool) : Option (SkipList V) := do
  let r ← findPreds lt s (KeyRef.ext key) true s.highestLevel s.header
    (List.replicate MaximumLevels none)
  let cur := r.1
  let upd := r.2
  let n ← lookupN s.heap cur
  match fwdAt n 0 with
  | none => none
  | some cand => do
    let cn ← lookupN s.heap cand
    if cn.key = key then
      some { s with heap := updateN s.heap cand (fun m => { m with value := value }) }
    else
      let newLevel := GetRandomLevel coins
      let upd2 := if decide (newLevel > s.highestLevel) then
          raiseHeaderGo s.header (s.highestLevel + 1) (newLevel - s.highestLevel) upd
        else upd
      let highest2 := if decide (newLevel > s.highestLevel) then newLevel else s.highestLevel
      let newPtr := s.nextPtr
      let heap0 := (newPtr, (⟨key, value, List.replicate MaximumLevels none⟩ : NodeType V)) :: s.heap
      let heap1 ← spliceGo upd2 newPtr 0 (highest2 + 1) heap0
      some { s with
              heap := heap1, nextPtr := s.nextPtr + 1, highestLevel := highest2
              size := (s.size + 1) % WordModulus }

/-- The splice loop of `Delete`, iterating at most `count` levels
starting at `lvl`: it stops (`break`) at the first level whose
predecessor does not point directly at the node being removed;
otherwise that predecessor is repointed at the removed node's forward
pointer on the same level. -/
def deleteSpliceGo {V : Type} (upd : List (Option Ptr)) (victim : Ptr) :
    Nat → Nat → List (Ptr × NodeType V) → Option (List (Ptr × NodeType V))
  | _, 0, heap => some heap
  | lvl, count + 1, heap =>
    match upd.getD lvl none with
    | none => none
    | some pred => do
      let pn ← lookupN heap pred
      if fwdAt pn lvl ≠ some victim then
        some heap
      else do
        let vn ← lookupN heap victim
        let heap1 := updateN heap pred (fun m => { m with forward := m.forward.set lvl (fwdAt vn lvl) })
        deleteSpliceGo upd victim (lvl + 1) count heap1

/-- The loop after the splice in `Delete`: while the highest level is
positive and the header's forward pointer there is null, lower the
highest level. -/
def lowerLevel {V : Type} (heap : List (Ptr × NodeType V)) (hdr : Ptr) : Nat → Option Nat
  | 0 => some 0
  | h + 1 => do
    let hn ← lookupN heap hdr
    if fwdAt hn (h + 1) = none then lowerLevel heap hdr h else some (h + 1)

/-- Model of `SkipList::Delete`.  Traverse, inspect the level-0
successor; if its key differs from the target under `operator!=`
report zero removals, otherwise splice it out of every level that
points at it, deallocate it, possibly lower the highest level, and
decrement the element count. -/
def Delete {V : Type} (lt : Int → Int → Bool) (s : SkipList V) (key : Int) :
    Option (SkipList V × Nat) := do
  let r ← findPreds lt s (KeyRef.ext key) false s.highestLevel s.header
    (List.replicate MaximumLevels none)
  let cur := r.1
  let upd := r.2
  let n ← lookupN s.heap cur
  match fwdAt n 0 with
  | none => none
  | some victim => do
    let vn ← lookupN s.heap victim
    if vn.key ≠ key then
      some (s, 0)
    else do
      let heap1 ← deleteSpliceGo upd victim 0 (s.highestLevel + 1) s.heap
      let heap2 := eraseN heap1 victim
      let highest2 ← lowerLevel heap2 s.header s.highestLevel
      some ({ s with
               heap := heap2, highestLevel := highest2
               size := (s.size + (WordModulus - 1)) % WordModulus }, 1)

/-- Model of `SkipList::Search`.  Traverse (with the same assertions as
`Insert`), then return an iterator at the level-0 successor when its
key compares equal with `operator==`, and an iterator at the terminal
node otherwise. -/
def Search {V : Type} (lt : Int → Int → Bool) (s : SkipList V) (key : Int) : Option Ptr := do
  let r ← findPreds lt s (KeyRef.ext key) true s.highestLevel s.header
    (List.replicate MaximumLevels none)
  let n ← lookupN s.heap r.1
  match fwdAt n 0 with
  | none => none
  | some cand => do
    let cn ← lookupN s.heap cand
    if cn.key = key then some cand else some s.endp

/-- Model of `SkipList::GetSize`. -/
def GetSize {V : Type} (s : SkipList V) : Nat :=
  s.size

/-- The deallocation walk of `SkipList::Clear`: delete nodes along the
level-0 chain until the terminal node is reached.  Comparing the
current pointer with `m_End` reads no memory; advancing dereferences
the current node. -/
def clearLoop {V : Type} (endp : Ptr) : Option Ptr → Nat → List (Ptr × NodeType V) → Option (List (Ptr × NodeType V))
  | _, 0, _ => none
  | cur, fuel + 1, heap =>
    if cur = some endp then
      some heap
    else
      match cur with
      | none => none
      | some p => do
        let n ← lookupN heap p
        clearLoop endp (fwdAt n 0) fuel (eraseN heap p)

/-- Model of `SkipList::Clear`: deallocate every node on the level-0
chain, point every header forward pointer back at the terminal node,
and reset the highest level and the element count. -/
def Clear {V : Type} (s : SkipList V) : Option (SkipList V) := do
  let hn ← lookupN s.heap s.header
  let heap1 ← clearLoop s.endp (fwdAt hn 0) (s.heap.length + 1) s.heap
  let heap2 := updateN heap1 s.header
    (fun m => { m with forward := List.replicate MaximumLevels (some s.endp) })
  some { s with heap := heap2, highestLevel := 0, size := 0 }

/-- Model of the `SkipList` constructor: allocate the header and the
terminal node (both default-constructed, so their key is `Int()` = 0
and their forward pointers are null), then point every header forward
pointer at the terminal node. -/
def mkSkipList {V : Type} [Inhabited V] : SkipList V :=
  { heap := [(0, ⟨0, default, List.replicate MaximumLevels (some 1)⟩),
             (1, ⟨0, default, List.replicate MaximumLevels none⟩)]
    nextPtr := 2, header := 0, endp := 1, highestLevel := 0, size := 0 }

/-- An iterator is a (possibly null) node pointer, `m_CurrentNode`. -/
abbrev Iter := Option Ptr

/-- Model of `SkipListIterator::operator++()` (prefix): replace the
current node by its level-0 forward pointer.  Dereferencing a null or
dead node is undefined. -/
def iterNext {V : Type} (s : SkipList V) : Iter → Option Iter
  | none => none
  | some p => (lookupN s.heap p).map (fun n => fwdAt n 0)

/-- Model of `std::exchange(obj, newValue)`: the object takes the new
value and the call returns the value the object held when `exchange`
was entered.  The result pair is (new object state, returned value). -/
def exchange {A : Type} (objAtCall newValue : A) : A × A :=
  (newValue, objAtCall)

/-- Model of `SkipListIterator::operator++(int)` (postfix):
`return std::exchange(*this, ++*this);`.  C++ evaluates the argument
`++*this` before the call, so the iterator is already advanced when
`exchange` reads the "old" value of `*this`.  The result pair is
(iterator state after the call, returned iterator). -/
def iterNextPost {V : Type} (s : SkipList V) (it : Iter) : Option (Iter × Iter) := do
  let thisAfterArg ← iterNext s it
  some (exchange thisAfterArg thisAfterArg)

/-- The comparison object `std::less<int>` of the test program. -/
def intLt : Int → Int → Bool :=
  fun a b => decide (a < b)

/-- A caller-supplied strict weak ordering under which every pair of
keys is equivalent: nothing is less than anything.  (Irreflexive and
transitive, with transitive incomparability.) -/
def falseLt : Int → Int → Bool :=
  fun _ _ => false

/-- The freshly constructed container of the failing runs, with `Nat`
values. -/
def initNat : SkipList Nat :=
  mkSkipList


/-- Claim C1.  The claim states that for every key `k`, value `v` and
reachable state, `Insert(k, v)` followed by `Search(k)` returns a
cursor at a node whose value is `v` and not the end-of-sequence
cursor.  The code violates this at `k = 0` on the freshly constructed
container: the terminal sentinel's default-constructed key is `0`, the
match in `Insert` and `Search` uses `operator==` on the raw keys, so
`Insert(0, 42)` overwrites the terminal sentinel's value and
`Search(0)` returns an iterator positioned at the terminal node, which
is exactly the end-of-sequence cursor. -/
theorem c1_search_after_insert_returns_end_cursor :
    (Insert intLt initNat 0 42 []).bind (fun s1 => Search intLt s1 0) = some 1 ∧
    (Insert intLt initNat 0 42 []).map (fun s1 => s1.endp) = some 1 ∧
    (Insert intLt initNat 0 42 []).map GetSize = some 0 := by
  decide

/-- Claim C2.  The claim states that the found / update / delete
decision is derived from the user's less-than relation as
`!(a < b) && !(b < a)` and that no separate equality operator of the
key type influences it.  The code decides the match with the key
type's `operator==` / `operator!=` instead (SkipList.h lines 305, 397,
484).  First failing instance: under the strict weak ordering that
makes all keys equivalent, the stored key `1` is equivalent to the
target `2` (`!(2 < 1) && !(1 < 2)`), yet `Delete(2)` on the container
holding key `1` removes nothing and leaves the state unchanged,
because `1 != 2` under `operator!=`.  Second failing instance: on the
empty container the target `0` is NOT equivalent to the terminal
sentinel's key under the container's own comparison (the sentinel
compares strictly greater), yet `Delete(0)` matches the sentinel via
`operator==` on the default-constructed key and reports one element
removed. -/
theorem c2_match_uses_key_equality_not_equivalence :
    ((!falseLt 2 1 && !falseLt 1 2) = true ∧
      (Insert falseLt initNat 1 7 []).bind
        (fun s => (Delete falseLt s 2).map (fun r => (r.2, decide (r.1 = s)))) =
        some (0, true)) ∧
    (IsLessThan intLt initNat (KeyRef.ext 0) (KeyRef.stored initNat.endp) = some true ∧
      (Delete intLt initNat 0).map Prod.snd = some 1) := by
  decide

/-- Claim C3.  The claim states that after a height `h` is drawn the
splice happens exactly for levels 0 up to `h` and for no level above
`h`.  The code's splice loop (SkipList.h line 430) runs up to
`m_HighestLevel` instead of the drawn level.  Failing run: insert key
10 with a drawn level of 1 (one heads), then insert key 20 with a
drawn level of 0 (no heads).  The node holding 20 (pointer 3) gets its
level-1 forward pointer set to the terminal node, and the level-1
forward pointer of the node holding 10 (pointer 2) is repointed at it
— a splice at level 1 > h = 0. -/
theorem c3_splice_exceeds_drawn_level :
    GetRandomLevel [] = 0 ∧
    ((Insert intLt initNat 10 7 [true]).bind (fun s => Insert intLt s 20 8 [])).bind
      (fun s => (lookupN s.heap 3).map (fun n => (n.key, fwdAt n 1))) = some (20, some 1) ∧
    ((Insert intLt initNat 10 7 [true]).bind (fun s => Insert intLt s 20 8 [])).bind
      (fun s => (lookupN s.heap 2).map (fun n => (n.key, fwdAt n 1))) = some (10, some 3) := by
  decide

/-- Claim C4.  The claim states that deleting the only node occupying
the container's top active level lowers the highest-level counter.
The lowering loop (SkipList.h line 333) tests the header's forward
pointer against null, but an empty level's header forward pointer is
the terminal node, never null, so the counter is never lowered.
Failing run: insert key 10 at drawn level 1, then delete it.  The
deletion succeeds, the container is empty, the header's level-1
forward pointer is the terminal node (nobody occupies level 1), yet
`m_HighestLevel` remains 1 instead of dropping to 0. -/
theorem c4_highest_level_not_lowered :
    (Insert intLt initNat 10 7 [true]).bind (fun s => (Delete intLt s 10).map
      (fun r => (r.2, r.1.highestLevel, GetSize r.1,
                 (lookupN r.1.heap r.1.header).map (fun n => fwdAt n 1)))) =
      some (1, 1, 0, some (some 1)) := by
  decide

/-- Claim C5.  The claim states that in every state reachable by
`Insert` / `Delete` / `Clear` sequences, following the forward
references from the header at every level ends at the terminal
sentinel.  The sequence consisting of the single call `Delete(0)` on
the fresh container destroys this: the target `0` matches the terminal
sentinel's default-constructed key under `operator!=`, so the sentinel
itself is spliced out and deallocated; afterwards the header's level-0
forward pointer is null and the walk no longer ends at the terminal
sentinel (which no longer exists). -/
theorem c5_level0_chain_broken :
    (Delete intLt initNat 0).bind
      (fun r => (lookupN r.1.heap r.1.header).map (fun n => fwdAt n 0)) = some none ∧
    (Delete intLt initNat 0).map (fun r => (lookupN r.1.heap r.1.endp).isSome) =
      some false := by
  decide

/-- Claim C6.  The claim states that inserting N distinct keys into a
fresh container makes `GetSize()` return N, and that deleting an
absent key returns 0 and leaves the size unchanged.  Failing inputs:
inserting the single distinct key `0` leaves the size at 0 (the insert
is absorbed by the terminal sentinel, whose default key compares equal
to 0 under `operator==`); deleting key `0` from the empty container
returns 1 and wraps the `std::size_t` size to `2 ^ 64 - 1`. -/
theorem c6_size_wrong_after_insert_and_delete :
    (Insert intLt initNat 0 42 []).map GetSize = some 0 ∧
    (Delete intLt initNat 0).map (fun r => (r.2, GetSize r.1)) =
      some (1, 2 ^ 64 - 1) := by
  decide

/-- Claim C7.  The claim states that whenever the key is not among the
container's stored elements, `Delete` returns 0 and leaves the entire
container state unchanged.  Failing input: the fresh container stores
no elements at all (`GetSize` is 0, the heap holds only the two
sentinels), yet `Delete(0)` returns 1 and mutates the state. -/
theorem c7_delete_missing_key_mutates :
    GetSize initNat = 0 ∧ initNat.heap.map Prod.fst = [0, 1] ∧
    (Delete intLt initNat 0).map (fun r => (r.2, decide (r.1 = initNat))) =
      some (1, false) := by
  decide

/-- The container state after inserting -10 (drawn level 0) and -30
(drawn level 1) and then calling `Delete(0)`, which deallocates the
terminal sentinel and leaves both level chains terminated by null
pointers while both real nodes survive. -/
def c8Mid : Option (SkipList Nat) := do
  let s1 ← Insert intLt initNat (-10) 1 []
  let s2 ← Insert intLt s1 (-30) 2 [true]
  let r ← Delete intLt s2 0
  some r.1

/-- Claim C8.  The claim states that for every key already present,
`Insert(k, v2)` overwrites only that node's value in place.  In the
reachable state `c8Mid` the real node at pointer 2 still holds key
-10, but `Insert(-10, 99)` dereferences a null level-1 forward pointer
during its traversal (the level-1 chain ends in null after the
sentinel deletion and every node on it compares less than -10) and the
program crashes instead of performing any update. -/
theorem c8_update_existing_key_crashes :
    c8Mid.map (fun s => (s.header, s.endp)) = some (0, 1) ∧
    c8Mid.bind (fun s => (lookupN s.heap 2).map (fun n => n.key)) = some (-10) ∧
    c8Mid.bind (fun s => Insert intLt s (-10) 99 []) = none := by
  decide


/-- Helper: whatever branch `Insert` takes, the resulting object keeps
the same `m_Header` and `m_End` pointers; the code only ever copies
those fields. -/
theorem Insert_preserves_sentinel_fields {V : Type} (lt : Int → Int → Bool) (s : SkipList V)
    (key : Int) (v : V) (coins : List Bool) (s2 : SkipList V)
    (h : Insert lt s key v coins = some s2) :
    s2.header = s.header ∧ s2.endp = s.endp := by
  unfold Insert at h
  simp only [Option.bind_eq_bind, Option.bind_eq_some] at h
  obtain ⟨r, hfp, h⟩ := h
  obtain ⟨n, hn, h⟩ := h
  rcases hf : fwdAt n 0 with _ | cand
  · rw [hf] at h
    exact absurd h (by simp)
  · rw [hf] at h
    simp only [Option.bind_eq_some] at h
    obtain ⟨cn, hc, h⟩ := h
    split at h
    · injection h with h2
      subst h2
      exact ⟨rfl, rfl⟩
    · simp only [Option.bind_eq_some] at h
      obtain ⟨h1, hsp, h⟩ := h
      injection h with h2
      subst h2
      exact ⟨rfl, rfl⟩

/-- Claim C9.  For every real key `k` (any `Int`, which covers the
maximal and minimal representable values) and any container whose two
sentinels are distinct objects, `IsLessThan` treats the header's key
as strictly less than `k` and the terminal node's key as strictly
greater than `k`; the outcome of any comparison with a sentinel
operand is the same under every user comparison object (sentinel-hood
is decided by address identity alone, and the user comparison is never
consulted on a sentinel key); and after any successful `Insert` of `k`
the sentinel pointers are unchanged and the same comparisons still
hold. -/
theorem c9_sentinel_comparisons {V : Type} (lt lt2 : Int → Int → Bool) (s : SkipList V)
    (k : Int) (h : s.header ≠ s.endp) :
    (IsLessThan lt s (KeyRef.stored s.header) (KeyRef.ext k) = some true ∧
     IsLessThan lt s (KeyRef.ext k) (KeyRef.stored s.header) = some false ∧
     IsLessThan lt s (KeyRef.ext k) (KeyRef.stored s.endp) = some true ∧
     IsLessThan lt s (KeyRef.stored s.endp) (KeyRef.ext k) = some false) ∧
    (∀ x : KeyRef,
      IsLessThan lt s (KeyRef.stored s.header) x = IsLessThan lt2 s (KeyRef.stored s.header) x ∧
      IsLessThan lt s x (KeyRef.stored s.header) = IsLessThan lt2 s x (KeyRef.stored s.header) ∧
      IsLessThan lt s (KeyRef.stored s.endp) x = IsLessThan lt2 s (KeyRef.stored s.endp) x ∧
      IsLessThan lt s x (KeyRef.stored s.endp) = IsLessThan lt2 s x (KeyRef.stored s.endp)) ∧
    (∀ (v : V) (coins : List Bool) (s2 : SkipList V),
      Insert lt s k v coins = some s2 →
      s2.header = s.header ∧ s2.endp = s.endp ∧
      IsLessThan lt s2 (KeyRef.stored s2.header) (KeyRef.ext k) = some true ∧
      IsLessThan lt s2 (KeyRef.ext k) (KeyRef.stored s2.endp) = some true) := by
  refine ⟨?_, ?_, ?_⟩
  · simp [IsLessThan, sameAddr, h]
  · intro x
    refine ⟨?_, ?_, ?_, ?_⟩ <;> unfold IsLessThan <;> split_ifs <;> simp_all
  · intro v coins s2 hi
    obtain ⟨e1, e2⟩ := Insert_preserves_sentinel_fields lt s k v coins s2 hi
    have h2 : s2.header ≠ s2.endp := by
      rw [e1, e2]
      exact h
    exact ⟨e1, e2, by simp [IsLessThan, sameAddr, h2], by simp [IsLessThan, sameAddr]⟩

/-- Witness for claim C9: the freshly constructed container has
distinct sentinels, and the theorem applies to it with the comparison
objects `intLt` and `falseLt` and the key 5. -/
theorem c9_sentinel_comparisons_witness :
    initNat.header ≠ initNat.endp ∧
    IsLessThan intLt initNat (KeyRef.stored initNat.header) (KeyRef.ext 5) = some true :=
  ⟨by decide, ((c9_sentinel_comparisons intLt falseLt initNat 5 (by decide)).1).1⟩

/-- Claim C10.  For every iterator positioned on a live node `p`, the
postfix increment advances the iterator and returns the
already-advanced iterator: the returned iterator equals, by node
identity, the result of the prefix increment (the node's level-0
forward pointer), and whenever that successor is a different node the
returned iterator is not the position before the call. -/
theorem c10_postfix_increment_returns_advanced {V : Type} (s : SkipList V) (p : Ptr)
    (n : NodeType V) (h1 : lookupN s.heap p = some n) :
    iterNextPost s (some p) = some (fwdAt n 0, fwdAt n 0) ∧
    iterNext s (some p) = some (fwdAt n 0) ∧
    (fwdAt n 0 ≠ some p →
      ∀ q : Iter × Iter, iterNextPost s (some p) = some q → q.2 ≠ some p) := by
  have hpost : iterNextPost s (some p) = some (fwdAt n 0, fwdAt n 0) := by
    simp [iterNextPost, iterNext, h1, exchange]
  refine ⟨hpost, by simp [iterNext, h1], ?_⟩
  intro hne q hq
  rw [hpost] at hq
  injection hq with hq2
  subst hq2
  exact hne

/-- Witness for claim C10: in the fresh container the iterator on the
header node (pointer 0, level-0 successor pointer 1) is advanced by
the postfix increment, which returns the advanced iterator. -/
theorem c10_postfix_increment_returns_advanced_witness :
    lookupN initNat.heap 0 =
      some (⟨0, 0, List.replicate MaximumLevels (some 1)⟩ : NodeType Nat) ∧
    iterNextPost initNat (some 0) = some (some 1, some 1) ∧
    (some 1 : Option Ptr) ≠ some 0 :=
  ⟨by decide,
   (c10_postfix_increment_returns_advanced initNat 0
     ⟨0, 0, List.replicate MaximumLevels (some 1)⟩ (by decide)).1,
   by decide⟩

end SkipListModel
